import Mathlib

/-!
Verification of the ClyCites ML-predict scripts.

The repository has two scripts connected by a CSV file:
  * `ml-predict/data/data.py` — `generate_dummy_data` draws seven columns from
    fixed uniform distributions (numpy, seeded with 42) and writes them to
    `dummy_agricultural_data.csv`;
  * `ml-predict/models/model_training.py` (duplicated, modulo comments, at
    `src/ml-predict/models/model_training.py`) — reads the CSV, one-hot encodes
    the `Climate Zone` column, splits 80/20, fits a random forest, reports
    accuracy and a per-label classification report, and dumps the model.

The numpy global random generator is modelled as a state (seed, position)
indexing into abstract draw streams: `U` yields the unit-interval draws behind
`np.random.uniform`, `K` the integer draws behind `np.random.choice`.  The
library calls (`pd.get_dummies`, `train_test_split`, `accuracy_score`,
`classification_report`) are modelled from their documented semantics at the
call sites in the trainer.  The random-forest fit itself is out of scope (the
spec explicitly leaves the classifier to the ML library), so the trainer model
is parameterised by an arbitrary fitted-classifier behaviour `fit`.
-/

/-- A row of the generated table: the seven columns built by
`generate_dummy_data` in `ml-predict/data/data.py` (lines 24-32). -/
structure Row where
  temperature : ℚ
  precipitation : ℚ
  soilPh : ℚ
  climateZone : String
  inputExpenses : ℚ
  outputPrices : ℚ
  recommendedProduct : String
deriving DecidableEq

instance : Inhabited Row := ⟨⟨0, 0, 0, "", 0, 0, ""⟩⟩

/-- State of numpy's global random generator: which seed it was last seeded
with and how many draws have been consumed since. -/
structure RNGState where
  seed : Nat
  pos : Nat
deriving DecidableEq

/-- `np.random.seed(s)` (data.py line 6): reset the global generator. -/
def npRandomSeed (s : Nat) : RNGState := ⟨s, 0⟩

/-- One draw of `np.random.uniform(lo, hi)`: `lo + u * (hi - lo)` where `u` is
the next unit-interval value of the seeded stream `U`. -/
def uniformDraw (U : Nat → Nat → ℚ) (lo hi : ℚ) (r : RNGState) : ℚ × RNGState :=
  (lo + U r.seed r.pos * (hi - lo), ⟨r.seed, r.pos + 1⟩)

/-- `np.random.uniform(lo, hi, n)`: an array of `n` uniform draws. -/
def uniformArray (U : Nat → Nat → ℚ) (lo hi : ℚ) : Nat → RNGState → List ℚ × RNGState
  | 0, r => ([], r)
  | n + 1, r =>
    let p := uniformDraw U lo hi r
    let q := uniformArray U lo hi n p.2
    (p.1 :: q.1, q.2)

/-- One draw of `np.random.choice(options)`: a uniformly chosen element,
modelled as indexing by the next integer draw of the stream `K` reduced
modulo the number of options. -/
def choiceDraw (K : Nat → Nat → Nat) (options : List String) (r : RNGState) :
    String × RNGState :=
  (options.getD (K r.seed r.pos % options.length) "", ⟨r.seed, r.pos + 1⟩)

/-- `np.random.choice(options, n)`: an array of `n` categorical draws. -/
def choiceArray (K : Nat → Nat → Nat) (options : List String) :
    Nat → RNGState → List String × RNGState
  | 0, r => ([], r)
  | n + 1, r =>
    let p := choiceDraw K options r
    let q := choiceArray K options n p.2
    (p.1 :: q.1, q.2)

/-- The climate zones drawn at data.py line 15. -/
def climateZoneOptions : List String := ["Tropical", "Temperate", "Arctic"]

/-- The products drawn at data.py line 22. -/
def productOptions : List String := ["Wheat", "Corn", "Rice", "Soybeans", "Potatoes"]

/-- `pd.DataFrame(data)` over the dict of seven equal-length columns
(data.py lines 24-33): rows are formed positionally. -/
def mkRows : List ℚ → List ℚ → List ℚ → List String → List ℚ → List ℚ →
    List String → List Row
  | t :: ts, p :: ps, s :: ss, c :: cs, i :: is, o :: os, r :: rs =>
    ⟨t, p, s, c, i, o, r⟩ :: mkRows ts ps ss cs is os rs
  | _, _, _, _, _, _, _ => []

/-- `generate_dummy_data(num_samples)` (data.py lines 5-33).  The ambient
generator state is the argument `amb`; line 6 (`np.random.seed(42)`) discards
it, after which the seven column arrays are drawn in source order. -/
def generateDummyData (U : Nat → Nat → ℚ) (K : Nat → Nat → Nat)
    (amb : RNGState) (numSamples : Nat) : List Row × RNGState :=
  let r0 := npRandomSeed 42
  let temperature := uniformArray U 15 35 numSamples r0
  let precipitation := uniformArray U 0 100 numSamples temperature.2
  let soilPh := uniformArray U 4 (17 / 2) numSamples precipitation.2
  let climateZones := choiceArray K climateZoneOptions numSamples soilPh.2
  let inputExpenses := uniformArray U 1000 5000 numSamples climateZones.2
  let outputPrices := uniformArray U 5000 10000 numSamples inputExpenses.2
  let products := choiceArray K productOptions numSamples outputPrices.2
  (mkRows temperature.1 precipitation.1 soilPh.1 climateZones.1
    inputExpenses.1 outputPrices.1 products.1, products.2)

/-- The module-level call `generate_dummy_data()` (data.py line 36) with the
default `num_samples=1000`. -/
def generateDummyDataDefault (U : Nat → Nat → ℚ) (K : Nat → Nat → Nat)
    (amb : RNGState) : List Row × RNGState :=
  generateDummyData U K amb 1000

/-- The CSV header written by `to_csv` (data.py line 42), in column order. -/
def csvHeader : String :=
  "Temperature (Celsius),Precipitation (mm),Soil pH,Climate Zone,Input Expenses (Currency),Output Prices (Currency),Recommended Product"

/-- One CSV line for a row. -/
def rowToCsv (r : Row) : String :=
  toString r.temperature ++ "," ++ toString r.precipitation ++ "," ++
    toString r.soilPh ++ "," ++ r.climateZone ++ "," ++
    toString r.inputExpenses ++ "," ++ toString r.outputPrices ++ "," ++
    r.recommendedProduct

/-- `dummy_data.to_csv('dummy_agricultural_data.csv', index=False)`
(data.py line 42): header line then one line per row. -/
def toCsv (rows : List Row) : String :=
  String.intercalate "\n" (csvHeader :: rows.map rowToCsv) ++ "\n"

-- Concrete streams used to instantiate theorems with hypotheses

/-- A concrete unit-interval draw stream: every draw is 1/2. -/
def unitHalfStream : Nat → Nat → ℚ := fun _ _ => 1 / 2

/-- A concrete integer draw stream: every draw is 0. -/
def zeroIntStream : Nat → Nat → Nat := fun _ _ => 0

-- Trainer model (ml-predict/models/model_training.py)

/-- Insert a string into a sorted list, comparing by the code-point
lexicographic order on the character data — the order Python (and hence
pandas) uses on strings. -/
def insertSorted (x : String) : List String → List String
  | [] => [x]
  | y :: ys => if x.data ≤ y.data then x :: y :: ys else y :: insertSorted x ys

/-- Sort a list of strings in Python's string order (insertion sort). -/
def sortStrings : List String → List String
  | [] => []
  | x :: xs => insertSorted x (sortStrings xs)

/-- The sorted distinct `Climate Zone` values of the table: the categories
that `pd.get_dummies(dummy_data, columns=['Climate Zone'])` (model_training.py
line 10) turns into indicator columns — one per distinct value present, in
sorted order. -/
def dummiesCategories (rows : List Row) : List String :=
  sortStrings (rows.map Row.climateZone).dedup

/-- The indicator column names produced by `pd.get_dummies` for the
`Climate Zone` column: `Climate Zone_` followed by each category. -/
def indicatorNames (rows : List Row) : List String :=
  (dummiesCategories rows).map (fun c => "Climate Zone_" ++ c)

/-- A row's indicator values over the category list: 1 in the position of its
own climate zone, 0 elsewhere. -/
def indicatorValues (cats : List String) (z : String) : List ℚ :=
  cats.map (fun c => if z = c then 1 else 0)

/-- The column names of the dummied frame: `pd.get_dummies` keeps the other
six columns in their original order and appends the indicator columns. -/
def dummiedColumnNames (rows : List Row) : List String :=
  ["Temperature (Celsius)", "Precipitation (mm)", "Soil pH",
    "Input Expenses (Currency)", "Output Prices (Currency)",
    "Recommended Product"] ++ indicatorNames rows

/-- The feature column names hard-coded at model_training.py lines 13-14. -/
def featureNames : List String :=
  ["Temperature (Celsius)", "Precipitation (mm)", "Soil pH",
    "Input Expenses (Currency)", "Output Prices (Currency)",
    "Climate Zone_Arctic", "Climate Zone_Temperate", "Climate Zone_Tropical"]

/-- The feature columns requested at line 18 that are absent from the dummied
frame; `dummy_data[features]` raises a `KeyError` naming them when this list
is non-empty. -/
def missingFeatureColumns (rows : List Row) : List String :=
  featureNames.filter (fun c => !((dummiedColumnNames rows).contains c))

/-- One row of `dummy_data[features]` when selection succeeds: the five
numeric columns followed by the three indicator values, in `features` order. -/
def rowFeatures (r : Row) : List ℚ :=
  [r.temperature, r.precipitation, r.soilPh, r.inputExpenses, r.outputPrices,
    if r.climateZone = "Arctic" then 1 else 0,
    if r.climateZone = "Temperate" then 1 else 0,
    if r.climateZone = "Tropical" then 1 else 0]

/-- Partition sizes of `train_test_split(..., test_size=0.2, ...)`
(model_training.py line 18), modelling scikit-learn's size validation:
`n_test = ceil(0.2 * n)`, `n_train = n - n_test`, and a `ValueError` (here
`none`) when either resulting set would be empty. -/
def validateShuffleSplit (n : Nat) : Option (Nat × Nat) :=
  let nTest := (n + 4) / 5
  let nTrain := n - nTest
  if nTrain = 0 ∨ nTest = 0 then none else some (nTrain, nTest)

/-- The shuffled split of `train_test_split`: scikit-learn permutes the row
indices with the seeded generator and takes the first `n_test` of the
permutation `perm` as test indices and the rest as train indices, applying
the same index lists to the features `X` and the target `y` — here to the
list of (features, label) pairs. -/
def trainTestSplitPairs (pairs : List (List ℚ × String)) (perm : List Nat)
    (nTest : Nat) : List (List ℚ × String) × List (List ℚ × String) :=
  ((perm.drop nTest).map (fun i => pairs.getD i ([], "")),
    (perm.take nTest).map (fun i => pairs.getD i ([], "")))

/-- `accuracy_score(y_test, y_pred)` (model_training.py line 28): the
fraction of positions where prediction equals truth. -/
def accuracyScore (yTrue yPred : List String) : ℚ :=
  (((yTrue.zip yPred).countP (fun p => p.1 == p.2) : ℕ) : ℚ) / yTrue.length

/-- The labels of `classification_report(y_test, y_pred)` (model_training.py
line 31): with no explicit label list, scikit-learn reports one entry per
distinct label appearing in `y_test` or `y_pred`, in sorted order. -/
def reportLabels (yTrue yPred : List String) : List String :=
  sortStrings (yTrue ++ yPred).dedup

/-- The ways a trainer run can fail. -/
inductive TrainError where
  | fileNotFound : TrainError
  | keyError : List String → TrainError
  | valueError : TrainError
deriving DecidableEq

/-- The observable result of a successful trainer run. -/
structure TrainerOutput where
  yTest : List String
  yPred : List String
  accuracy : ℚ
  labels : List String
deriving DecidableEq

/-- The trainer script `ml-predict/models/model_training.py`, lines 7-35.
`file` is the outcome of `pd.read_csv` (`none` when the file is missing or
unreadable); `perm` is the row-index permutation drawn by `train_test_split`
from its seeded generator; `fit` is the behaviour of the random forest fitted
on the training pairs (the classifier algorithm itself is third-party and out
of the spec's scope).  The steps in source order: read, `get_dummies`, select
the hard-coded feature columns (a `KeyError` when one is absent), split
80/20, fit, predict on the test features, compute accuracy and the
classification-report labels. -/
def modelTraining (file : Option (List Row)) (perm : List Nat)
    (fit : List (List ℚ × String) → List ℚ → String) :
    Except TrainError TrainerOutput :=
  match file with
  | none => .error .fileNotFound
  | some rows =>
    if (missingFeatureColumns rows).isEmpty then
      let pairs := rows.map (fun r => (rowFeatures r, r.recommendedProduct))
      match validateShuffleSplit rows.length with
      | none => .error .valueError
      | some nn =>
        let split := trainTestSplitPairs pairs perm nn.2
        let clf := fit split.1
        let yTest := split.2.map Prod.snd
        let yPred := split.2.map (fun p => clf p.1)
        .ok ⟨yTest, yPred, accuracyScore yTest yPred, reportLabels yTest yPred⟩
    else .error (.keyError (missingFeatureColumns rows))

/-- The duplicate trainer script `src/ml-predict/models/model_training.py`,
lines 6-27.  Its statements are those of `ml-predict/models/model_training.py`
without the comments: read, `get_dummies`, select the same hard-coded feature
columns, split with `test_size=0.2, random_state=42`, fit a 100-tree random
forest, predict, report accuracy and the classification report, dump the
model. -/
def modelTrainingSrc (file : Option (List Row)) (perm : List Nat)
    (fit : List (List ℚ × String) → List ℚ → String) :
    Except TrainError TrainerOutput :=
  match file with
  | none => .error .fileNotFound
  | some rows =>
    if (missingFeatureColumns rows).isEmpty then
      let pairs := rows.map (fun r => (rowFeatures r, r.recommendedProduct))
      match validateShuffleSplit rows.length with
      | none => .error .valueError
      | some nn =>
        let split := trainTestSplitPairs pairs perm nn.2
        let clf := fit split.1
        let yTest := split.2.map Prod.snd
        let yPred := split.2.map (fun p => clf p.1)
        .ok ⟨yTest, yPred, accuracyScore yTest yPred, reportLabels yTest yPred⟩
    else .error (.keyError (missingFeatureColumns rows))

/-- The files the trainer writes: `joblib.dump` (line 35) is the last
statement, so the model file is written exactly when the run succeeds. -/
def modelTrainingWrites (file : Option (List Row)) (perm : List Nat)
    (fit : List (List ℚ × String) → List ℚ → String) : List String :=
  match modelTraining file perm fit with
  | .ok _ => ["agricultural_product_recommendation_model.joblib"]
  | .error _ => []

-- Concrete fixtures used by witnesses and counterexamples

/-- A sample row with climate zone Tropical and product Wheat. -/
def sampleTropical : Row := ⟨20, 50, 6, "Tropical", 2000, 7000, "Wheat"⟩

/-- A sample row with climate zone Temperate and product Corn. -/
def sampleTemperate : Row := ⟨21, 51, 7, "Temperate", 2100, 7100, "Corn"⟩

/-- A sample row with climate zone Arctic and product Rice. -/
def sampleArctic : Row := ⟨22, 52, 5, "Arctic", 2200, 7200, "Rice"⟩

/-- A three-row sample table containing each climate zone once. -/
def sampleRows : List Row := [sampleTropical, sampleTemperate, sampleArctic]

/-- A fitted-classifier behaviour that predicts Corn for every feature row. -/
def constCorn : List (List ℚ × String) → List ℚ → String := fun _ _ => "Corn"

/-- The output of the trainer on `sampleRows` with the identity index
permutation and the constant-Corn classifier. -/
def sampleOkOutput : TrainerOutput :=
  ⟨["Wheat"], ["Corn"], accuracyScore ["Wheat"] ["Corn"], ["Corn", "Wheat"]⟩

-- Helper lemmas about the generator

theorem uniformArray_length (U : Nat → Nat → ℚ) (lo hi : ℚ) :
    ∀ (n : Nat) (r : RNGState), (uniformArray U lo hi n r).1.length = n := by
  intro n
  induction n with
  | zero => intro r; rfl
  | succ m ih => intro r; simp [uniformArray, ih]

theorem choiceArray_length (K : Nat → Nat → Nat) (options : List String) :
    ∀ (n : Nat) (r : RNGState), (choiceArray K options n r).1.length = n := by
  intro n
  induction n with
  | zero => intro r; rfl
  | succ m ih => intro r; simp [choiceArray, ih]

theorem uniformArray_mem_bounds (U : Nat → Nat → ℚ) (lo hi : ℚ)
    (hU : ∀ s i, 0 ≤ U s i ∧ U s i < 1) (hlo : lo ≤ hi) :
    ∀ (n : Nat) (r : RNGState) (x : ℚ),
      x ∈ (uniformArray U lo hi n r).1 → lo ≤ x ∧ x ≤ hi := by
  intro n
  induction n with
  | zero => intro r x hx; simp [uniformArray] at hx
  | succ m ih =>
    intro r x hx
    simp only [uniformArray, List.mem_cons] at hx
    rcases hx with hx | hx
    · subst hx
      have h1 := (hU r.seed r.pos).1
      have h2 := (hU r.seed r.pos).2
      constructor
      · simp only [uniformDraw]
        nlinarith
      · simp only [uniformDraw]
        nlinarith
    · exact ih _ _ hx

theorem choiceArray_mem (K : Nat → Nat → Nat) (options : List String)
    (hopt : options ≠ []) :
    ∀ (n : Nat) (r : RNGState) (x : String),
      x ∈ (choiceArray K options n r).1 → x ∈ options := by
  intro n
  induction n with
  | zero => intro r x hx; simp [choiceArray] at hx
  | succ m ih =>
    intro r x hx
    simp only [choiceArray, List.mem_cons] at hx
    rcases hx with hx | hx
    · subst hx
      simp only [choiceDraw]
      have hlen : 0 < options.length := List.length_pos.mpr hopt
      have hlt : K r.seed r.pos % options.length < options.length :=
        Nat.mod_lt _ hlen
      rw [List.getD_eq_getElem _ _ hlt]
      exact List.getElem_mem hlt
    · exact ih _ _ hx

theorem mkRows_length : ∀ (ts ps ss : List ℚ) (cs : List String)
    (is os : List ℚ) (rs : List String) (n : Nat),
    ts.length = n → ps.length = n → ss.length = n → cs.length = n →
    is.length = n → os.length = n → rs.length = n →
    (mkRows ts ps ss cs is os rs).length = n := by
  intro ts
  induction ts with
  | nil =>
    intro ps ss cs is os rs n ht _ _ _ _ _ _
    cases n with
    | zero => rfl
    | succ m => simp at ht
  | cons t ts ih =>
    intro ps ss cs is os rs n ht hp hs hc hi ho hr
    cases n with
    | zero => simp at ht
    | succ m =>
      cases ps with
      | nil => simp at hp
      | cons p ps =>
        cases ss with
        | nil => simp at hs
        | cons s ss =>
          cases cs with
          | nil => simp at hc
          | cons c cs =>
            cases is with
            | nil => simp at hi
            | cons i is =>
              cases os with
              | nil => simp at ho
              | cons o os =>
                cases rs with
                | nil => simp at hr
                | cons r rs =>
                  simp only [mkRows, List.length_cons] at *
                  exact congrArg Nat.succ
                    (ih ps ss cs is os rs m (by omega) (by omega) (by omega)
                      (by omega) (by omega) (by omega) (by omega))

theorem mkRows_mem : ∀ (ts ps ss : List ℚ) (cs : List String)
    (is os : List ℚ) (rs : List String) (row : Row),
    row ∈ mkRows ts ps ss cs is os rs →
    row.temperature ∈ ts ∧ row.precipitation ∈ ps ∧ row.soilPh ∈ ss ∧
    row.climateZone ∈ cs ∧ row.inputExpenses ∈ is ∧ row.outputPrices ∈ os ∧
    row.recommendedProduct ∈ rs := by
  intro ts
  induction ts with
  | nil => intro ps ss cs is os rs row h; simp [mkRows] at h
  | cons t ts ih =>
    intro ps ss cs is os rs row h
    cases ps with
    | nil => simp [mkRows] at h
    | cons p ps =>
      cases ss with
      | nil => simp [mkRows] at h
      | cons s ss =>
        cases cs with
        | nil => simp [mkRows] at h
        | cons c cs =>
          cases is with
          | nil => simp [mkRows] at h
          | cons i is =>
            cases os with
            | nil => simp [mkRows] at h
            | cons o os =>
              cases rs with
              | nil => simp [mkRows] at h
              | cons r rs =>
                simp only [mkRows, List.mem_cons] at h
                rcases h with h | h
                · subst h
                  simp [List.mem_cons]
                · have := ih ps ss cs is os rs row h
                  simp only [List.mem_cons]
                  tauto


/-- Claim C1: every row produced by `generate_dummy_data` has each column
within its declared distribution's bounds — temperature in [15,35],
precipitation in [0,100], soil pH in [4,8.5], input expense in [1000,5000],
output price in [5000,10000], climate zone among Tropical/Temperate/Arctic and
recommended product among Wheat/Corn/Rice/Soybeans/Potatoes. -/
theorem c1_generated_values_within_bounds (U : Nat → Nat → ℚ)
    (K : Nat → Nat → Nat) (amb : RNGState) (n : Nat)
    (hU : ∀ s i, 0 ≤ U s i ∧ U s i < 1) :
    ∀ row ∈ (generateDummyData U K amb n).1,
      (15 ≤ row.temperature ∧ row.temperature ≤ 35) ∧
      (0 ≤ row.precipitation ∧ row.precipitation ≤ 100) ∧
      (4 ≤ row.soilPh ∧ row.soilPh ≤ 17 / 2) ∧
      (1000 ≤ row.inputExpenses ∧ row.inputExpenses ≤ 5000) ∧
      (5000 ≤ row.outputPrices ∧ row.outputPrices ≤ 10000) ∧
      row.climateZone ∈ climateZoneOptions ∧
      row.recommendedProduct ∈ productOptions := by
  intro row hrow
  simp only [generateDummyData] at hrow
  have h := mkRows_mem _ _ _ _ _ _ _ _ hrow
  obtain ⟨h1, h2, h3, h4, h5, h6, h7⟩ := h
  refine ⟨?_, ?_, ?_, ?_, ?_, ?_, ?_⟩
  · exact uniformArray_mem_bounds U 15 35 hU (by norm_num) _ _ _ h1
  · exact uniformArray_mem_bounds U 0 100 hU (by norm_num) _ _ _ h2
  · exact uniformArray_mem_bounds U 4 (17 / 2) hU (by norm_num) _ _ _ h3
  · exact uniformArray_mem_bounds U 1000 5000 hU (by norm_num) _ _ _ h5
  · exact uniformArray_mem_bounds U 5000 10000 hU (by norm_num) _ _ _ h6
  · exact choiceArray_mem K climateZoneOptions (by simp [climateZoneOptions]) _ _ _ h4
  · exact choiceArray_mem K productOptions (by simp [productOptions]) _ _ _ h7

/-- Witness for C1 at the concrete streams and two samples. -/
theorem c1_witness :
    (∀ s i, 0 ≤ unitHalfStream s i ∧ unitHalfStream s i < 1) ∧
    ∀ row ∈ (generateDummyData unitHalfStream zeroIntStream ⟨7, 3⟩ 2).1,
      (15 ≤ row.temperature ∧ row.temperature ≤ 35) ∧
      (0 ≤ row.precipitation ∧ row.precipitation ≤ 100) ∧
      (4 ≤ row.soilPh ∧ row.soilPh ≤ 17 / 2) ∧
      (1000 ≤ row.inputExpenses ∧ row.inputExpenses ≤ 5000) ∧
      (5000 ≤ row.outputPrices ∧ row.outputPrices ≤ 10000) ∧
      row.climateZone ∈ climateZoneOptions ∧
      row.recommendedProduct ∈ productOptions :=
  ⟨fun s i => by norm_num [unitHalfStream],
    c1_generated_values_within_bounds unitHalfStream zeroIntStream ⟨7, 3⟩ 2
      (fun s i => by norm_num [unitHalfStream])⟩

/-- Claim C4: `generate_dummy_data` reseeds the global generator with 42
before drawing, so two runs from arbitrary ambient generator states produce
identical tables and, through `to_csv`, byte-identical file contents. -/
theorem c4_generator_deterministic (U : Nat → Nat → ℚ) (K : Nat → Nat → Nat)
    (s1 s2 : RNGState) (n : Nat) :
    (generateDummyData U K s1 n).1 = (generateDummyData U K s2 n).1 ∧
    toCsv (generateDummyData U K s1 n).1 = toCsv (generateDummyData U K s2 n).1 :=
  ⟨rfl, rfl⟩

/-- Claim C5: `generate_dummy_data` returns exactly `num_samples` rows, and
the module-level call uses the default of 1000 samples. -/
theorem c5_row_count (U : Nat → Nat → ℚ) (K : Nat → Nat → Nat)
    (amb : RNGState) (n : Nat) :
    (generateDummyData U K amb n).1.length = n ∧
    (generateDummyDataDefault U K amb).1.length = 1000 := by
  constructor
  · simp only [generateDummyData]
    exact mkRows_length _ _ _ _ _ _ _ n
      (uniformArray_length U 15 35 n _) (uniformArray_length U 0 100 n _)
      (uniformArray_length U 4 (17 / 2) n _)
      (choiceArray_length K climateZoneOptions n _)
      (uniformArray_length U 1000 5000 n _)
      (uniformArray_length U 5000 10000 n _)
      (choiceArray_length K productOptions n _)
  · simp only [generateDummyDataDefault, generateDummyData]
    exact mkRows_length _ _ _ _ _ _ _ 1000
      (uniformArray_length U 15 35 1000 _) (uniformArray_length U 0 100 1000 _)
      (uniformArray_length U 4 (17 / 2) 1000 _)
      (choiceArray_length K climateZoneOptions 1000 _)
      (uniformArray_length U 1000 5000 1000 _)
      (uniformArray_length U 5000 10000 1000 _)
      (choiceArray_length K productOptions 1000 _)

-- String order and sorting lemmas

theorem string_data_inj {s t : String} (h : s.data = t.data) : s = t := by
  cases s
  cases t
  exact congrArg String.mk h

theorem insertSorted_comm_of (x y : String) (hxy : x.data ≤ y.data)
    (hyx : ¬ y.data ≤ x.data) (L : List String) :
    insertSorted x (insertSorted y L) = insertSorted y (insertSorted x L) := by
  induction L with
  | nil => simp [insertSorted, hxy, hyx]
  | cons z zs ih =>
    by_cases hyz : y.data ≤ z.data
    · have hxz : x.data ≤ z.data := le_trans hxy hyz
      simp [insertSorted, hxy, hyx, hyz, hxz]
    · by_cases hxz : x.data ≤ z.data
      · simp [insertSorted, hxy, hyx, hyz, hxz]
      · simp [insertSorted, hyz, hxz, ih]

theorem insertSorted_comm (x y : String) (L : List String) :
    insertSorted x (insertSorted y L) = insertSorted y (insertSorted x L) := by
  by_cases hxy : x.data ≤ y.data
  · by_cases hyx : y.data ≤ x.data
    · have hx : x = y := string_data_inj (le_antisymm hxy hyx)
      subst hx
      rfl
    · exact insertSorted_comm_of x y hxy hyx L
  · have hyx : y.data ≤ x.data := le_of_not_le hxy
    exact (insertSorted_comm_of y x hyx hxy L).symm

theorem sortStrings_congr {l1 l2 : List String} (h : l1.Perm l2) :
    sortStrings l1 = sortStrings l2 := by
  induction h with
  | nil => rfl
  | cons x _ ih => simp [sortStrings, ih]
  | swap x y l =>
    simp only [sortStrings]
    exact insertSorted_comm y x (sortStrings l)
  | trans _ _ ih1 ih2 => rw [ih1, ih2]

theorem insertSorted_perm (x : String) (L : List String) :
    (insertSorted x L).Perm (x :: L) := by
  induction L with
  | nil => exact List.Perm.refl _
  | cons y ys ih =>
    by_cases h : x.data ≤ y.data
    · simp [insertSorted, h]
    · simp only [insertSorted, if_neg h]
      exact (ih.cons y).trans (List.Perm.swap x y ys)

theorem sortStrings_perm (L : List String) : (sortStrings L).Perm L := by
  induction L with
  | nil => exact List.Perm.refl _
  | cons x xs ih =>
    exact (insertSorted_perm x (sortStrings xs)).trans (ih.cons x)

-- One-hot encoding (C2)

theorem dummiesCategories_all_present (rows : List Row)
    (hsub : ∀ r ∈ rows, r.climateZone ∈ climateZoneOptions)
    (hfull : ∀ z ∈ climateZoneOptions, z ∈ rows.map Row.climateZone) :
    dummiesCategories rows = ["Arctic", "Temperate", "Tropical"] := by
  have hperm : ((rows.map Row.climateZone).dedup).Perm climateZoneOptions := by
    rw [List.perm_ext_iff_of_nodup (List.nodup_dedup _) (by decide)]
    intro a
    rw [List.mem_dedup]
    constructor
    · intro ha
      obtain ⟨r, hr, hrz⟩ := List.mem_map.mp ha
      exact hrz ▸ hsub r hr
    · intro ha
      exact hfull a ha
  calc dummiesCategories rows = sortStrings climateZoneOptions :=
        sortStrings_congr hperm
    _ = ["Arctic", "Temperate", "Tropical"] := by decide

/-- Claim C2, counterexample: a table whose `Climate Zone` column only holds
values from {Tropical, Temperate, Arctic} — here a single Tropical row — does
not get three indicator columns out of `pd.get_dummies`; it gets one per
distinct value present. -/
theorem c2_counterexample :
    ¬ (∀ rows : List Row,
        (∀ r ∈ rows, r.climateZone ∈ climateZoneOptions) →
        indicatorNames rows =
          ["Climate Zone_Arctic", "Climate Zone_Temperate", "Climate Zone_Tropical"]) := by
  intro h
  have hx := h [sampleTropical] (by decide)
  exact absurd hx (by decide)

/-- Claim C2 (amended): for every table whose `Climate Zone` column holds
values only from {Tropical, Temperate, Arctic} and contains each of the three
at least once, one-hot expansion produces exactly the three indicator columns
`Climate Zone_Arctic`, `Climate Zone_Temperate`, `Climate Zone_Tropical`, and
every row's indicator values sum to 1 with exactly one of them equal to 1. -/
theorem c2_one_hot_encoding (rows : List Row)
    (hsub : ∀ r ∈ rows, r.climateZone ∈ climateZoneOptions)
    (hfull : ∀ z ∈ climateZoneOptions, z ∈ rows.map Row.climateZone) :
    indicatorNames rows =
      ["Climate Zone_Arctic", "Climate Zone_Temperate", "Climate Zone_Tropical"] ∧
    ∀ r ∈ rows,
      (indicatorValues (dummiesCategories rows) r.climateZone).sum = 1 ∧
      (indicatorValues (dummiesCategories rows) r.climateZone).count 1 = 1 := by
  have hcats := dummiesCategories_all_present rows hsub hfull
  constructor
  · rw [indicatorNames, hcats]
    decide
  · intro r hr
    have hz := hsub r hr
    rw [hcats]
    simp only [climateZoneOptions, List.mem_cons, List.not_mem_nil, or_false] at hz
    rcases hz with hz | hz | hz <;> rw [hz]
    · exact ⟨by norm_num [indicatorValues,
        show ("Tropical" : String) ≠ "Arctic" from by decide,
        show ("Tropical" : String) ≠ "Temperate" from by decide], by decide⟩
    · exact ⟨by norm_num [indicatorValues,
        show ("Temperate" : String) ≠ "Arctic" from by decide,
        show ("Temperate" : String) ≠ "Tropical" from by decide], by decide⟩
    · exact ⟨by norm_num [indicatorValues,
        show ("Arctic" : String) ≠ "Temperate" from by decide,
        show ("Arctic" : String) ≠ "Tropical" from by decide], by decide⟩

/-- Witness for C2 (amended) at the three-row sample table. -/
theorem c2_witness :
    ((∀ r ∈ sampleRows, r.climateZone ∈ climateZoneOptions) ∧
      (∀ z ∈ climateZoneOptions, z ∈ sampleRows.map Row.climateZone)) ∧
    (indicatorNames sampleRows =
      ["Climate Zone_Arctic", "Climate Zone_Temperate", "Climate Zone_Tropical"] ∧
    ∀ r ∈ sampleRows,
      (indicatorValues (dummiesCategories sampleRows) r.climateZone).sum = 1 ∧
      (indicatorValues (dummiesCategories sampleRows) r.climateZone).count 1 = 1) :=
  ⟨⟨by decide, by decide⟩, c2_one_hot_encoding sampleRows (by decide) (by decide)⟩

-- Train/test split sizes (C3)

/-- Claim C3, counterexample: on a one-row dataset the split does not yield
partitions — scikit-learn's size validation rejects it because the resulting
train set would be empty (`validateShuffleSplit 1 = none`). -/
theorem c3_counterexample :
    ¬ (∀ n : Nat, 1 ≤ n → ∃ p : Nat × Nat, validateShuffleSplit n = some p) := by
  intro h
  obtain ⟨p, hp⟩ := h 1 le_rfl
  rw [show validateShuffleSplit 1 = none from rfl] at hp
  cases hp

/-- Claim C3 (amended): for every dataset of n ≥ 2 rows, the split with
`test_size=0.2` yields a test partition of size `ceil(0.2 * n)` — within one
of `0.2 * n` — and a train partition of exactly the remaining rows. -/
theorem c3_split_sizes (n : Nat) (h : 2 ≤ n) :
    validateShuffleSplit n = some (n - (n + 4) / 5, (n + 4) / 5) ∧
    n ≤ 5 * ((n + 4) / 5) ∧ 5 * ((n + 4) / 5) < n + 5 ∧
    n - (n + 4) / 5 + (n + 4) / 5 = n ∧
    ∀ (pairs : List (List ℚ × String)) (perm : List Nat), perm.length = n →
      (trainTestSplitPairs pairs perm ((n + 4) / 5)).2.length = (n + 4) / 5 ∧
      (trainTestSplitPairs pairs perm ((n + 4) / 5)).1.length = n - (n + 4) / 5 := by
  refine ⟨?_, by omega, by omega, by omega, ?_⟩
  · simp only [validateShuffleSplit]
    rw [if_neg]
    omega
  · intro pairs perm hlen
    constructor
    · simp only [trainTestSplitPairs, List.length_map, List.length_take, hlen]
      omega
    · simp only [trainTestSplitPairs, List.length_map, List.length_drop, hlen]

/-- Witness for C3 (amended) at n = 10: the split is 8 train / 2 test. -/
theorem c3_witness : 2 ≤ 10 ∧ validateShuffleSplit 10 = some (8, 2) :=
  ⟨by norm_num, by
    have h := (c3_split_sizes 10 (by norm_num)).1
    simpa using h⟩

-- Split partition invariants (C8)

theorem map_getD_range {α : Type} (l : List α) (d : α) :
    (List.range l.length).map (fun i => l.getD i d) = l := by
  induction l with
  | nil => rfl
  | cons a t ih =>
    rw [List.length_cons, List.range_succ_eq_map, List.map_cons, List.map_map]
    have h : ((fun i => (a :: t).getD i d) ∘ Nat.succ) = fun i => t.getD i d := by
      funext i
      simp [List.getD_cons_succ]
    rw [h, ih]
    rfl

/-- Claim C8: when the index permutation really is a permutation of the row
indices, the split partitions the dataset — the test and train index lists
are disjoint and together a permutation of all indices, the test and train
row lists together are a permutation of the full dataset (no row dropped,
duplicated, or shared), and within each part the feature rows stay aligned
with their target labels (zipping the X and y projections restores the
pairs). -/
theorem c8_split_is_partition (pairs : List (List ℚ × String)) (perm : List Nat)
    (nTest : Nat) (hperm : perm.Perm (List.range pairs.length)) :
    perm.take nTest ++ perm.drop nTest = perm ∧
    (perm.take nTest ++ perm.drop nTest).Perm (List.range pairs.length) ∧
    (perm.take nTest).Disjoint (perm.drop nTest) ∧
    ((trainTestSplitPairs pairs perm nTest).2 ++
      (trainTestSplitPairs pairs perm nTest).1).Perm pairs ∧
    ((trainTestSplitPairs pairs perm nTest).1.map Prod.fst).zip
      ((trainTestSplitPairs pairs perm nTest).1.map Prod.snd) =
      (trainTestSplitPairs pairs perm nTest).1 ∧
    ((trainTestSplitPairs pairs perm nTest).2.map Prod.fst).zip
      ((trainTestSplitPairs pairs perm nTest).2.map Prod.snd) =
      (trainTestSplitPairs pairs perm nTest).2 := by
  have hnodup : perm.Nodup := hperm.nodup_iff.mpr (List.nodup_range _)
  refine ⟨List.take_append_drop nTest perm, ?_, ?_, ?_, ?_, ?_⟩
  · rw [List.take_append_drop]
    exact hperm
  · exact List.disjoint_take_drop hnodup le_rfl
  · have h1 : (trainTestSplitPairs pairs perm nTest).2 ++
        (trainTestSplitPairs pairs perm nTest).1 =
        perm.map (fun i => pairs.getD i ([], "")) := by
      simp only [trainTestSplitPairs, ← List.map_append, List.take_append_drop]
    rw [h1]
    have h2 := hperm.map (fun i => pairs.getD i ([], ""))
    rwa [map_getD_range pairs ([], "")] at h2
  · rw [List.zip_map']
    simp
  · rw [List.zip_map']
    simp

/-- Witness for C8 at a three-pair dataset with permutation [1, 0, 2] and one
test row. -/
theorem c8_witness :
    ([1, 0, 2] : List Nat).Perm
      (List.range ([([(1 : ℚ)], "a"), ([2], "b"), ([3], "c")] :
        List (List ℚ × String)).length) ∧
    ((trainTestSplitPairs [([(1 : ℚ)], "a"), ([2], "b"), ([3], "c")] [1, 0, 2] 1).2 ++
      (trainTestSplitPairs [([(1 : ℚ)], "a"), ([2], "b"), ([3], "c")] [1, 0, 2] 1).1).Perm
      [([(1 : ℚ)], "a"), ([2], "b"), ([3], "c")] := by
  have hp : ([1, 0, 2] : List Nat).Perm
      (List.range ([([(1 : ℚ)], "a"), ([2], "b"), ([3], "c")] :
        List (List ℚ × String)).length) := List.Perm.swap 0 1 [2]
  exact ⟨hp, (c8_split_is_partition [([(1 : ℚ)], "a"), ([2], "b"), ([3], "c")]
    [1, 0, 2] 1 hp).2.2.2.1⟩

-- Accuracy and classification report (C6)

theorem accuracyScore_bounds (yTrue yPred : List String) :
    0 ≤ accuracyScore yTrue yPred ∧ accuracyScore yTrue yPred ≤ 1 := by
  constructor
  · exact div_nonneg (Nat.cast_nonneg _) (Nat.cast_nonneg _)
  · rcases Nat.eq_zero_or_pos yTrue.length with h | h
    · rw [accuracyScore, h]
      norm_num
    · rw [accuracyScore, div_le_one (by exact_mod_cast h)]
      have hc : (yTrue.zip yPred).countP (fun p => p.1 == p.2) ≤ yTrue.length := by
        refine le_trans (List.countP_le_length _) ?_
        rw [List.length_zip]
        exact min_le_left _ _
      exact_mod_cast hc

theorem reportLabels_spec (yTrue yPred : List String) :
    (reportLabels yTrue yPred).Nodup ∧
    ∀ l, l ∈ reportLabels yTrue yPred ↔ l ∈ yTrue ∨ l ∈ yPred := by
  have hp := sortStrings_perm (yTrue ++ yPred).dedup
  constructor
  · exact hp.nodup_iff.mpr (List.nodup_dedup _)
  · intro l
    rw [reportLabels, hp.mem_iff, List.mem_dedup, List.mem_append]

theorem modelTraining_ok_inv (file : Option (List Row)) (perm : List Nat)
    (fit : List (List ℚ × String) → List ℚ → String) (out : TrainerOutput)
    (h : modelTraining file perm fit = .ok out) :
    out.accuracy = accuracyScore out.yTest out.yPred ∧
    out.labels = reportLabels out.yTest out.yPred := by
  cases file with
  | none => exact absurd h (by simp [modelTraining])
  | some rows =>
    simp only [modelTraining] at h
    split at h
    · split at h
      · cases h
      · cases h
        exact ⟨rfl, rfl⟩
    · cases h

/-- Claim C6, counterexample: a trainer run exists — three rows, one test
row with true label Wheat, a fitted classifier predicting Corn — whose
classification report has an entry (Corn) for a label absent from the test
partition: scikit-learn reports the union of test and predicted labels. -/
theorem c6_counterexample :
    ¬ (∀ (file : Option (List Row)) (perm : List Nat)
        (fit : List (List ℚ × String) → List ℚ → String) (out : TrainerOutput),
        modelTraining file perm fit = .ok out →
        (0 ≤ out.accuracy ∧ out.accuracy ≤ 1) ∧ out.labels.Nodup ∧
        ∀ l, l ∈ out.labels ↔ l ∈ out.yTest) := by
  intro h
  have hx := (h (some sampleRows) [0, 1, 2] constCorn sampleOkOutput rfl).2.2 "Corn"
  have h1 : "Corn" ∈ sampleOkOutput.labels := by decide
  have h2 : "Corn" ∉ sampleOkOutput.yTest := by decide
  exact h2 (hx.mp h1)

/-- Claim C6 (amended): for every successful run of the trainer, the reported
accuracy lies in [0,1], and the classification report contains exactly one
entry per distinct label present in the test partition or among the
predictions. -/
theorem c6_accuracy_and_report_labels (file : Option (List Row)) (perm : List Nat)
    (fit : List (List ℚ × String) → List ℚ → String) (out : TrainerOutput)
    (h : modelTraining file perm fit = .ok out) :
    (0 ≤ out.accuracy ∧ out.accuracy ≤ 1) ∧ out.labels.Nodup ∧
    ∀ l, l ∈ out.labels ↔ l ∈ out.yTest ∨ l ∈ out.yPred := by
  obtain ⟨ha, hl⟩ := modelTraining_ok_inv file perm fit out h
  rw [ha, hl]
  exact ⟨accuracyScore_bounds _ _, (reportLabels_spec _ _).1, (reportLabels_spec _ _).2⟩

/-- Witness for C6 (amended) at the sample run. -/
theorem c6_witness :
    modelTraining (some sampleRows) [0, 1, 2] constCorn = .ok sampleOkOutput ∧
    ((0 ≤ sampleOkOutput.accuracy ∧ sampleOkOutput.accuracy ≤ 1) ∧
    sampleOkOutput.labels.Nodup ∧
    ∀ l, l ∈ sampleOkOutput.labels ↔
      l ∈ sampleOkOutput.yTest ∨ l ∈ sampleOkOutput.yPred) :=
  ⟨rfl, c6_accuracy_and_report_labels (some sampleRows) [0, 1, 2] constCorn
    sampleOkOutput rfl⟩

-- Error propagation (C7)

/-- Claim C7: the trainer catches no error — a missing input file surfaces as
the read failure, an empty dataset fails at feature selection (no indicator
columns exist), and whenever a run fails, no model file is written, since
`joblib.dump` is the final statement of the script. -/
theorem c7_failures_propagate (perm : List Nat)
    (fit : List (List ℚ × String) → List ℚ → String) :
    modelTraining none perm fit = .error .fileNotFound ∧
    modelTrainingWrites none perm fit = [] ∧
    modelTraining (some []) perm fit =
      .error (.keyError
        ["Climate Zone_Arctic", "Climate Zone_Temperate", "Climate Zone_Tropical"]) ∧
    modelTrainingWrites (some []) perm fit = [] ∧
    ∀ (file : Option (List Row)) (e : TrainError),
      modelTraining file perm fit = .error e → modelTrainingWrites file perm fit = [] := by
  refine ⟨rfl, rfl, rfl, rfl, ?_⟩
  intro file e he
  simp only [modelTrainingWrites, he]

/-- Witness for C7 at the missing-file input. -/
theorem c7_witness :
    modelTraining none [] constCorn = .error .fileNotFound ∧
    modelTrainingWrites none [] constCorn = [] :=
  ⟨(c7_failures_propagate [] constCorn).1, (c7_failures_propagate [] constCorn).2.1⟩

-- Hard-coded indicator columns (C9)

/-- Claim C9: the trainer hard-codes the three indicator column names; for
every input table whose `Climate Zone` column misses one of the three values,
that value's indicator column is absent from the dummied frame, so selecting
the feature columns fails with a `KeyError` naming it — the trainer never
silently proceeds with fewer features. -/
theorem c9_missing_zone_fails (rows : List Row) (v : String) (perm : List Nat)
    (fit : List (List ℚ × String) → List ℚ → String)
    (hv : v ∈ climateZoneOptions) (hmiss : ∀ r ∈ rows, r.climateZone ≠ v) :
    ("Climate Zone_" ++ v) ∈ missingFeatureColumns rows ∧
    modelTraining (some rows) perm fit =
      .error (.keyError (missingFeatureColumns rows)) := by
  have hnotind : ("Climate Zone_" ++ v) ∉ indicatorNames rows := by
    intro hin
    obtain ⟨c, hc, hstr⟩ := List.mem_map.mp hin
    have hd : ("Climate Zone_" ++ c).data = ("Climate Zone_" ++ v).data :=
      congrArg String.data hstr
    rw [String.data_append, String.data_append] at hd
    have hvc : c = v := string_data_inj (List.append_cancel_left hd)
    have hc2 : c ∈ (rows.map Row.climateZone).dedup :=
      ((sortStrings_perm _).mem_iff).mp hc
    rw [List.mem_dedup] at hc2
    obtain ⟨r, hr, hrz⟩ := List.mem_map.mp hc2
    exact hmiss r hr (by rw [hrz, hvc])
  have hmem : ("Climate Zone_" ++ v) ∈ featureNames := by
    simp only [climateZoneOptions, List.mem_cons, List.not_mem_nil, or_false] at hv
    rcases hv with hv | hv | hv <;> rw [hv] <;> decide
  have hnotcol : ("Climate Zone_" ++ v) ∉ dummiedColumnNames rows := by
    intro hin
    rw [dummiedColumnNames, List.mem_append] at hin
    rcases hin with hin | hin
    · revert hin
      simp only [climateZoneOptions, List.mem_cons, List.not_mem_nil, or_false] at hv
      rcases hv with hv | hv | hv <;> rw [hv] <;> decide
    · exact hnotind hin
  have hmm : ("Climate Zone_" ++ v) ∈ missingFeatureColumns rows := by
    rw [missingFeatureColumns, List.mem_filter]
    refine ⟨hmem, ?_⟩
    have hc : (dummiedColumnNames rows).contains ("Climate Zone_" ++ v) = false := by
      simpa using hnotcol
    rw [hc]
    rfl
  have hne : ¬ (missingFeatureColumns rows).isEmpty = true := by
    rw [List.isEmpty_iff]
    intro h0
    rw [h0] at hmm
    cases hmm
  refine ⟨hmm, ?_⟩
  simp only [modelTraining]
  rw [if_neg hne]

/-- Witness for C9: a one-row Tropical table is missing Arctic, and the
trainer fails with the `KeyError`. -/
theorem c9_witness :
    ("Arctic" ∈ climateZoneOptions ∧
      ∀ r ∈ [sampleTropical], r.climateZone ≠ "Arctic") ∧
    ("Climate Zone_" ++ "Arctic") ∈ missingFeatureColumns [sampleTropical] ∧
    modelTraining (some [sampleTropical]) [] constCorn =
      .error (.keyError (missingFeatureColumns [sampleTropical])) :=
  ⟨⟨by decide, by decide⟩,
    c9_missing_zone_fails [sampleTropical] "Arctic" [] constCorn
      (by decide) (by decide)⟩

-- Duplicate trainer scripts (C10)

/-- Claim C10: the two trainer source files are behaviourally equivalent —
on every input they perform the same read, encoding, selection, split,
fitting, metric, and model-dump steps, differing only in comments. -/
theorem c10_trainer_scripts_equivalent (file : Option (List Row))
    (perm : List Nat) (fit : List (List ℚ × String) → List ℚ → String) :
    modelTraining file perm fit = modelTrainingSrc file perm fit := rfl
